import Mathlib

/-!
Verification of the genomepy provider / download pipeline (src/genomepy/provider.py,
src/genomepy/functions.py, src/genomepy/plugins/minimap2.py).

Strings from the Python source are embedded as `List Char`; Python string methods
(`lower`, `upper`, `strip`, `replace`, `split`, `startswith`, `capitalize`) are
modelled as executable functions on `List Char`.  Filesystem-level behaviour
(staging directories, atomic moves) is modelled over an explicit filesystem state.
-/

/-- Python `str.lower()` (ASCII). -/
def pyLower (l : List Char) : List Char := l.map Char.toLower

/-- Python `str.upper()` (ASCII). -/
def pyUpper (l : List Char) : List Char := l.map Char.toUpper

/-- Python `str.strip()` with no argument: remove leading and trailing whitespace. -/
def pyStrip (l : List Char) : List Char :=
  ((l.dropWhile Char.isWhitespace).reverse.dropWhile Char.isWhitespace).reverse

/-- Python single-character `str.replace(a, b)`, e.g. `name.replace(" ", "_")`. -/
def pyReplaceChar (a b : Char) (l : List Char) : List Char :=
  l.map (fun c => if c = a then b else c)

/-- Source `ProviderBase.safe`: `name.replace(" ", "_")` (provider.py line 188). -/
def safeName (l : List Char) : List Char := pyReplaceChar ' ' '_' l

/-- Fuel-driven worker for Python `str.replace(pat, rep)`: scan left to right and
replace each non-overlapping occurrence of `pat`.  The fuel always starts at the
length of the scanned list, so the `0, l` arm is unreachable for nonempty `l`. -/
def pyReplaceAux (pat rep : List Char) : Nat → List Char → List Char
  | _, [] => []
  | 0, l => l
  | Nat.succ fuel, c :: rest =>
    if pat ≠ [] ∧ pat.isPrefixOf (c :: rest) then
      rep ++ pyReplaceAux pat rep fuel (List.drop (pat.length - 1) rest)
    else
      c :: pyReplaceAux pat rep fuel rest

/-- Python `str.replace(pat, rep)` for a nonempty pattern. -/
def pyReplace (pat rep l : List Char) : List Char := pyReplaceAux pat rep l.length l

/-- Python substring test `sub in l`. -/
def listContains (sub l : List Char) : Bool := l.tails.any (fun t => sub.isPrefixOf t)

/-- Python `str.capitalize()`: first character upper-cased, the rest lower-cased. -/
def pyCapitalize (l : List Char) : List Char :=
  match l with
  | [] => []
  | c :: rest => c.toUpper :: rest.map Char.toLower

/-- Source `re.sub(r"\.p\d+$", "", assembly_name)` (provider.py line 622): strip a
trailing `.p<digits>` patch suffix. -/
def stripPSuffix (l : List Char) : List Char :=
  let r := l.reverse
  if r.takeWhile Char.isDigit ≠ [] ∧ (r.dropWhile Char.isDigit).take 2 = ['p', '.'] then
    ((r.dropWhile Char.isDigit).drop 2).reverse
  else l

/-- Python `int(term)` success test: optional surrounding whitespace, an optional
sign, then one or more ASCII digits. -/
def pyParsesAsInt (s : List Char) : Bool :=
  let t := pyStrip s
  match t with
  | [] => false
  | c :: rest =>
    if c = '+' ∨ c = '-' then !rest.isEmpty && rest.all Char.isDigit
    else t.all Char.isDigit

/-- Decimal digits to a natural number. -/
def digitsToNat (l : List Char) : Nat := l.foldl (fun n c => 10 * n + (c.toNat - 48)) 0

/-- Python `int(term)` as a partial function. -/
def pyIntVal (s : List Char) : Option Int :=
  if pyParsesAsInt s then
    match pyStrip s with
    | '-' :: rest => some (-(digitsToNat rest : Int))
    | '+' :: rest => some ((digitsToNat rest : Int))
    | t => some ((digitsToNat t : Int))
  else none

/-- Python `str(n)` for an integer value. -/
def intToChars (n : Int) : List Char := (toString n).data

/-- Distinct error outcomes of the link resolvers.  `genomeDownloadError` embeds
`genomepy.exceptions.GenomeDownloadError`, the exception class the source raises
when a genome cannot be found or downloaded; `notImplemented` embeds the
`NotImplementedError` raised for the Ensembl bacteria division. -/
inductive GenomeErr where
  | genomeDownloadError : GenomeErr
  | notImplemented : GenomeErr
deriving DecidableEq

/-- The five-column tuple yielded by every provider catalog listing / search:
(name, accession, scientific name, taxonomy id as text, description). -/
structure GenomeInfoTuple where
  name : List Char
  accession : List Char
  scientific : List Char
  taxid : List Char
  description : List Char
deriving DecidableEq

/-- One row of the NCBI assembly-summary catalog (the fields of the parsed
tab-separated line that the source reads). -/
structure NcbiGenome where
  asm_name : List Char
  gbrs_paired_asm : List Char
  assembly_accession : List Char
  organism_name : List Char
  species_taxid : List Char
  submitter : List Char
  ftp_path : List Char
deriving DecidableEq

/-- Source `NcbiProvider._genome_info_tuple` (provider.py lines 1024-1042): pick the
first of `gbrs_paired_asm`, `assembly_accession` that starts with `GCA`, else `na`. -/
def ncbiInfoTuple (g : NcbiGenome) : GenomeInfoTuple :=
  { name := g.asm_name
    accession :=
      (([g.gbrs_paired_asm, g.assembly_accession]).find?
        (fun a => ("GCA".data).isPrefixOf a)).getD ("na".data)
    scientific := g.organism_name
    taxid := g.species_taxid
    description := g.submitter }

/-- Source `NcbiProvider.list_available_genomes` (provider.py lines 1044-1064),
tuple form: one info tuple per catalog row. -/
def ncbiListAvailableGenomes (genomes : List NcbiGenome) : List GenomeInfoTuple :=
  genomes.map ncbiInfoTuple

/-- Python `repr` of a string value joined in `NcbiProvider.search` (the quotes of
`repr(x)` included). -/
def pyReprStr (s : List Char) : List Char := Char.ofNat 39 :: s ++ [Char.ofNat 39]

/-- Values of one NCBI catalog row as `NcbiProvider.search` joins them:
`";".join([repr(x).replace(" ", "_") for x in genome.values()])`. -/
def ncbiValuesJoined (g : NcbiGenome) : List Char :=
  List.intercalate [';']
    (([g.asm_name, g.gbrs_paired_asm, g.assembly_accession, g.organism_name,
       g.species_taxid, g.submitter, g.ftp_path]).map
      (fun v => pyReplaceChar ' ' '_' (pyReprStr v)))

/-- Source `NcbiProvider.search` (provider.py lines 1109-1140).  A term that parses
as an integer is compared, as text, against `species_taxid` only; otherwise the
lower-cased underscore-normalized term is searched in the joined row values. -/
def ncbiSearch (term : List Char) (genomes : List NcbiGenome) : List GenomeInfoTuple :=
  if pyParsesAsInt term then
    (genomes.filter (fun g => term == g.species_taxid)).map ncbiInfoTuple
  else
    let t := pyReplaceChar ' ' '_' (pyLower term)
    (genomes.filter (fun g => listContains t (pyLower (ncbiValuesJoined g)))).map ncbiInfoTuple

/-- Source `NcbiProvider.get_genome_download_link` URL construction
(provider.py lines 1166-1171): replace `ftp://` with `https://` in the catalog
`ftp_path`, then append `/<last path segment>_genomic.fna.gz`. -/
def ncbiGenomeUrl (g : NcbiGenome) : List Char :=
  let url := pyReplace ("ftp://".data) ("https://".data) g.ftp_path
  url ++ ('/' :: (((url.splitOn '/').getLast?.getD []) ++ ("_genomic.fna.gz".data)))

/-- Source `NcbiProvider.get_genome_download_link` (provider.py lines 1142-1172):
find the first catalog row whose `asm_name` (raw or underscore-normalized) equals
`name`, else raise `GenomeDownloadError`. -/
def ncbiGetGenomeDownloadLink (name : List Char) (genomes : List NcbiGenome) :
    Except GenomeErr (List Char × List Char) :=
  match genomes.find? (fun g => name == g.asm_name || name == safeName g.asm_name) with
  | some g => .ok (name, ncbiGenomeUrl g)
  | none => .error .genomeDownloadError

/-- One genome record of the Ensembl division listings (`info/genomes/division`
JSON).  `extraValues` stands for the remaining JSON fields, which participate only
in the free-text search join. -/
structure EnsemblGenome where
  assembly_name : List Char
  name : List Char
  assembly_accession : Option (List Char)
  scientific_name : List Char
  taxonomy_id : Option Int
  genebuild : List Char
  division : List Char
  url_name : List Char
  extraValues : List (List Char)
deriving DecidableEq

/-- Python `str(genome.get("taxonomy_id", ""))` of an Ensembl record. -/
def ensemblTaxidStr (g : EnsemblGenome) : List Char :=
  match g.taxonomy_id with
  | some n => intToChars n
  | none => []

/-- Source `EnsemblProvider._genome_info_tuple` (provider.py lines 513-520). -/
def ensemblInfoTuple (g : EnsemblGenome) : GenomeInfoTuple :=
  { name := safeName g.assembly_name
    accession := g.assembly_accession.getD ("na".data)
    scientific := g.scientific_name
    taxid := ensemblTaxidStr g
    description := g.genebuild }

/-- Values of one Ensembl record as `EnsemblProvider.search` joins them:
`",".join([str(v) for v in genome.values()])` (JSON field order abstracted). -/
def ensemblValuesJoined (g : EnsemblGenome) : List Char :=
  List.intercalate [',']
    ([g.assembly_name, g.name, g.assembly_accession.getD [], g.scientific_name,
      ensemblTaxidStr g, g.genebuild, g.division, g.url_name] ++ g.extraValues)

/-- Source `EnsemblProvider.search` (provider.py lines 522-551).  A term that
parses as an integer is compared, as text, against `taxonomy_id` only; otherwise
the lower-cased term is searched in the joined record values. -/
def ensemblSearch (term : List Char) (genomes : List EnsemblGenome) :
    List GenomeInfoTuple :=
  if pyParsesAsInt term then
    (genomes.filter (fun g => term == ensemblTaxidStr g)).map ensemblInfoTuple
  else
    let t := pyLower term
    (genomes.filter (fun g => listContains t (pyLower (ensemblValuesJoined g)))).map
      ensemblInfoTuple

/-- Source `EnsemblProvider._get_genome_info` (provider.py lines 457-477): look up
the accession of the first catalog record whose safe assembly name equals the safe
requested name; with no match the accession stays the empty (falsy) string and a
`GenomeDownloadError` is raised; otherwise the per-assembly info endpoint is
queried (`assemblyInfo` oracle), whose HTTP error also becomes
`GenomeDownloadError`. -/
def ensemblGetGenomeInfo (name : List Char) (genomes : List EnsemblGenome)
    (assemblyInfo : List Char → Except Unit EnsemblGenome) :
    Except GenomeErr EnsemblGenome :=
  let acc :=
    match genomes.find? (fun g => safeName g.assembly_name == safeName name) with
    | some g => g.assembly_accession.getD ("na".data)
    | none => []
  if acc ≠ [] then
    match assemblyInfo acc with
    | .ok gi => .ok gi
    | .error _ => .error .genomeDownloadError
  else .error .genomeDownloadError

/-- Source `division = genome_info["division"].lower().replace("ensembl", "")`
(provider.py line 587). -/
def ensemblDivision (g : EnsemblGenome) : List Char :=
  pyReplace ("ensembl".data) [] (pyLower g.division)

/-- Source `ftp_site` selection of `EnsemblProvider.get_genome_download_link`
(provider.py lines 591-593): the ensemblgenomes FTP site unless the division is
vertebrates, which lives on the main Ensembl HTTP site. -/
def ensemblFtpSite (gi : EnsemblGenome) : List Char :=
  if ensemblDivision gi = ("vertebrates".data) then ("http://ftp.ensembl.org/pub".data)
  else ("ftp://ftp.ensemblgenomes.org/pub".data)

/-- Source `ftp_dir` construction (provider.py lines 601-610): the release/fasta
directory, with the division prepended for non-vertebrate divisions. -/
def ensemblFtpDir (gi : EnsemblGenome) (version : List Char) : List Char :=
  if ensemblDivision gi ≠ ("vertebrates".data) then
    ('/' :: ensemblDivision gi) ++ ("/release-".data) ++ version ++ ("/fasta/".data) ++
      pyLower gi.url_name ++ ("/dna/".data)
  else
    ("/release-".data) ++ version ++ ("/fasta/".data) ++ pyLower gi.url_name ++
      ("/dna/".data)

/-- Source `get_url(level)` closure (provider.py lines 612-625): the full fasta
URL at the requested assembly level, with the mask choosing the
`dna` / `dna_sm` / `dna_rm` file pattern. -/
def ensemblGetUrl (gi : EnsemblGenome) (mask version level : List Char) : List Char :=
  let pattern :=
    if mask = ("soft".data) then ("dna_sm.".data) ++ level
    else if mask = ("hard".data) then ("dna_rm.".data) ++ level
    else ("dna.".data) ++ level
  ensemblFtpSite gi ++ ('/' :: ensemblFtpDir gi version) ++
    ('/' :: pyCapitalize gi.url_name) ++
    ('.' :: stripPSuffix (safeName gi.assembly_name)) ++ ('.' :: pattern) ++
    (".fa.gz".data)

/-- Source version resolution (provider.py lines 595-599): an explicit kwarg wins,
else the cached instance version, else the version scraped by `get_version`. -/
def ensemblVersion (kwargsVersion selfVersion : Option (List Char))
    (fetchedVersion : List Char) : List Char :=
  match kwargsVersion with
  | some v => v
  | none => match selfVersion with
    | some v => v
    | none => fetchedVersion

/-- Body of `EnsemblProvider.get_genome_download_link` once the genome info record
is available (provider.py lines 586-639): fail fast on the bacteria division, then
try the primary assembly unless `toplevel` is forced, falling back to toplevel
when the existence probe fails. -/
def ensemblLinkFromInfo (gi : EnsemblGenome) (mask : List Char)
    (kwargsVersion selfVersion : Option (List Char)) (fetchedVersion : List Char)
    (toplevel : Bool) (primaryProbeOk : List Char → Bool) :
    Except GenomeErr (List Char × List Char) :=
  if ensemblDivision gi = ("bacteria".data) then .error .notImplemented
  else if toplevel then
    .ok (safeName gi.assembly_name,
      ensemblGetUrl gi mask (ensemblVersion kwargsVersion selfVersion fetchedVersion)
        ("toplevel".data))
  else if primaryProbeOk (ensemblGetUrl gi mask
      (ensemblVersion kwargsVersion selfVersion fetchedVersion)
      ("primary_assembly".data)) then
    .ok (safeName gi.assembly_name,
      ensemblGetUrl gi mask (ensemblVersion kwargsVersion selfVersion fetchedVersion)
        ("primary_assembly".data))
  else
    .ok (safeName gi.assembly_name,
      ensemblGetUrl gi mask (ensemblVersion kwargsVersion selfVersion fetchedVersion)
        ("toplevel".data))

/-- Source `EnsemblProvider.get_genome_download_link` (provider.py lines 566-639).
`assemblyInfo` models the REST lookup in `_get_genome_info`; `kwargsVersion`,
`selfVersion` and `fetchedVersion` model the three-way version resolution
(explicit kwarg, cached instance version, `get_version` scrape); `primaryProbeOk`
models the `urlopen` existence probe of the primary-assembly URL. -/
def ensemblGetGenomeDownloadLink (name : List Char) (genomes : List EnsemblGenome)
    (assemblyInfo : List Char → Except Unit EnsemblGenome) (mask : List Char)
    (kwargsVersion selfVersion : Option (List Char)) (fetchedVersion : List Char)
    (toplevel : Bool) (primaryProbeOk : List Char → Bool) :
    Except GenomeErr (List Char × List Char) :=
  match ensemblGetGenomeInfo name genomes assemblyInfo with
  | .error e => .error e
  | .ok gi =>
    ensemblLinkFromInfo gi mask kwargsVersion selfVersion fetchedVersion toplevel
      primaryProbeOk

/-- One entry of the UCSC `ucscGenomes` REST dictionary; `key` is the dictionary
key (the genome build name). -/
structure UcscGenome where
  key : List Char
  scientificName : List Char
  taxId : Int
  description : List Char
deriving DecidableEq

/-- Source `UcscProvider._genome_info_tuple` (provider.py lines 812-820);
`accessionOf` models the cached `assembly_accession` readme scrape. -/
def ucscInfoTuple (accessionOf : List Char → List Char) (g : UcscGenome) :
    GenomeInfoTuple :=
  { name := g.key
    accession := accessionOf g.key
    scientific := g.scientificName
    taxid := intToChars g.taxId
    description := g.description }

/-- Source `UcscProvider.search` (provider.py lines 822-861).  A term that parses
as an integer is compared, as an integer, against `taxId` only.  Otherwise the
lower-cased underscore-normalized term is first tried as an exact dictionary key
and then searched inside the `description` and `scientificName` fields (a record
matching both fields is yielded twice, as in the source). -/
def ucscSearch (term : List Char) (genomes : List UcscGenome)
    (accessionOf : List Char → List Char) : List GenomeInfoTuple :=
  match pyIntVal term with
  | some n => (genomes.filter (fun g => n == g.taxId)).map (ucscInfoTuple accessionOf)
  | none =>
    let t := pyReplaceChar ' ' '_' (pyLower term)
    match genomes.find? (fun g => g.key == t) with
    | some g => [ucscInfoTuple accessionOf g]
    | none =>
      genomes.flatMap (fun g =>
        ([g.description, g.scientificName]).filterMap (fun fld =>
          if listContains t (pyReplaceChar ' ' '_' (pyLower fld)) then
            some (ucscInfoTuple accessionOf g)
          else none))

/-- Source UCSC URL templates (provider.py lines 710-714, 884-886): the two masked
templates when `mask == "hard"`, else the two unmasked ones, each instantiated
with the genome build name. -/
def ucscUrlTemplates (mask name : List Char) : List (List Char) :=
  let base := ("http://hgdownload.soe.ucsc.edu/goldenPath".data)
  if mask = ("hard".data) then
    [base ++ ('/' :: name) ++ ("/bigZips/chromFaMasked.tar.gz".data),
     base ++ ('/' :: name) ++ ("/bigZips/".data) ++ name ++ (".fa.masked.gz".data)]
  else
    [base ++ ('/' :: name) ++ ("/bigZips/chromFa.tar.gz".data),
     base ++ ('/' :: name) ++ ("/bigZips/".data) ++ name ++ (".fa.gz".data)]

/-- Source `UcscProvider.get_genome_download_link` (provider.py lines 863-897):
return the first candidate URL whose HTTP HEAD probe (`headStatus`) answers 200,
else raise `GenomeDownloadError`. -/
def ucscGetGenomeDownloadLink (name mask : List Char) (headStatus : List Char → Nat) :
    Except GenomeErr (List Char × List Char) :=
  match (ucscUrlTemplates mask name).find? (fun u => headStatus u == 200) with
  | some u => .ok (name, u)
  | none => .error .genomeDownloadError

/-- Source `UrlProvider.get_genome_download_link` (provider.py lines 1280-1292):
the provided URL is returned verbatim as both name and link. -/
def urlGetGenomeDownloadLink (url : List Char) : List Char × List Char := (url, url)

/-- Link classifier of the spec: starts with `http://`, `https://` or `ftp://`. -/
def isRemoteLink (l : List Char) : Bool :=
  ([("http://".data), ("https://".data), ("ftp://".data)]).any
    (fun p => p.isPrefixOf l)

/-- Source memory-aware chunk selection (provider.py lines 266-274):
`cutoff = int(available_memory * 0.75)` and `chunk_size = None if file_size <
cutoff else cutoff`.  `none` means one unchunked copy. -/
def downloadChunkSize (availableMemory fileSize : Nat) : Option Nat :=
  let cutoff := 3 * availableMemory / 4
  if fileSize < cutoff then none else some cutoff

/-- Positional-argument signature of a Python method (`self` excluded):
`maxPositional` counts all positional parameters, `requiredPositional` those
without defaults. -/
structure PyCallable where
  maxPositional : Nat
  requiredPositional : Nat
deriving DecidableEq

/-- Python call binding with positional arguments only: the call raises
`TypeError` unless required ≤ nargs ≤ max. -/
def pyAcceptsPositionalCall (f : PyCallable) (nargs : Nat) : Bool :=
  f.requiredPositional ≤ nargs && nargs ≤ f.maxPositional

/-- Source `Minimap2Plugin.after_genome_download(self, genome, force=False)`
(plugins/minimap2.py line 8): two positional parameters, one required. -/
def minimap2AfterGenomeDownload : PyCallable :=
  { maxPositional := 2, requiredPositional := 1 }

/-- Source plugin invocation in `install_genome` (functions.py line 290):
`plugin.after_genome_download(g, threads, force)` passes three positional
arguments. -/
def installGenomePluginCallArity : Nat := 3

/-- Filesystem path: components from the root. -/
abbrev FPath := List String

/-- Explicit filesystem state: a set of existing directories and a list of files
with their line contents (the head entry for a path shadows older ones). -/
structure FS where
  dirs : List FPath
  files : List (FPath × List String)
deriving DecidableEq

/-- Directory existence. -/
def FS.dirIn (fs : FS) (p : FPath) : Bool := fs.dirs.contains p

/-- Content of a file, if present. -/
def FS.lookupFile (fs : FS) (p : FPath) : Option (List String) :=
  (fs.files.find? (fun e => e.1 == p)).map (fun e => e.2)

/-- File existence. -/
def FS.fileIn (fs : FS) (p : FPath) : Bool := (fs.lookupFile p).isSome

/-- Python `os.makedirs`: create the directory and all its ancestors. -/
def FS.mkdirp (fs : FS) (p : FPath) : FS := { fs with dirs := p.inits ++ fs.dirs }

/-- Write (create or overwrite) a file. -/
def FS.write (fs : FS) (p : FPath) (c : List String) : FS :=
  { fs with files := (p, c) :: fs.files }

/-- Python `shutil.move` of a single file: an atomic rename of `src` onto `dst`. -/
def FS.moveFile (fs : FS) (src dst : FPath) : FS :=
  match fs.lookupFile src with
  | some c =>
    { dirs := fs.dirs, files := (dst, c) :: fs.files.filter (fun e => !(e.1 == src)) }
  | none => fs

/-- Removal of a whole subtree (the cleanup `TemporaryDirectory` performs when the
`with` block exits, on success and on failure alike). -/
def FS.removeTree (fs : FS) (p : FPath) : FS :=
  { dirs := fs.dirs.filter (fun d => !(p.isPrefixOf d)),
    files := fs.files.filter (fun e => !(p.isPrefixOf e.1)) }

/-- Modelled from the spec: `get_localname` lives in `genomepy.utils`, which is not
under src/.  Per the spec, the local name is a user override when given, else a
provider-normalized form of the remote name with spaces replaced. -/
def get_localname (name : String) (localname : Option String) : String :=
  match localname with
  | some l => l
  | none => ⟨name.data.map (fun c => if c = ' ' then '_' else c)⟩

/-- Failure outcomes of the per-provider post-processing hooks. -/
inductive HookErr where
  | fastaNotFound : FPath → HookErr
  | fileNotFound : FPath → HookErr
deriving DecidableEq

/-- Header test `line.startswith(">")`. -/
def isHeaderLine (line : String) : Bool := decide (line.data.take 1 = ['>'])

/-- Source `UcscProvider._post_process_download` (provider.py lines 899-935).  With
mask `hard` or `soft` nothing happens.  Otherwise the staged fasta
`<out_dir>/<localname>.fa` is read and every sequence line is upper-cased into the
temporary file `new_fa`, which is then moved over the original.  The source
computes `new_fa = os.path.join(out_dir, localname, ".process.<localname>.fa")`,
i.e. with an extra `localname` directory component between `out_dir` and the file
name; opening that path for writing fails unless that subdirectory exists. -/
def ucscPostProcessDownload (fs : FS) (name : String) (localname : Option String)
    (outDir : FPath) (mask : String) : Except HookErr FS :=
  if mask = "hard" ∨ mask = "soft" then .ok fs
  else
    let ln := get_localname name localname
    let fa := outDir ++ [ln ++ ".fa"]
    match fs.lookupFile fa with
    | none => .error (.fastaNotFound fa)
    | some content =>
      let newFa := outDir ++ [ln, ".process." ++ ln ++ ".fa"]
      if !(fs.dirIn (outDir ++ [ln])) then .error (.fileNotFound newFa)
      else
        let processed :=
          content.map (fun line =>
            if isHeaderLine line then line else ⟨line.data.map Char.toUpper⟩)
        .ok ((fs.write newFa processed).moveFile newFa fa)

/-- Source `desc = line.strip()[1:]` (provider.py line 1224): the header text
without the leading marker. -/
def headerDesc (line : List Char) : List Char := (pyStrip line).drop 1

/-- Source `name = desc.split(" ")[0]` (provider.py line 1225): the accession is
the first space-separated word of the header text. -/
def headerAccession (line : List Char) : List Char :=
  (headerDesc line).takeWhile (fun c => c ≠ ' ')

/-- Python `tr.get(name, name)` over the accession-to-name mapping. -/
def trGet (tr : List (List Char × List Char)) (k : List Char) : List Char :=
  ((tr.find? (fun e => e.1 == k)).map (fun e => e.2)).getD k

/-- Source per-line rewrite of `NcbiProvider._post_process_download`
(provider.py lines 1220-1232).  `tr` is the accession-to-name mapping built from
the assembly report; lines are modelled without their trailing newline (the
newline is whitespace, stripped on header lines and unaffected by
`re.sub("[actg]", "N", ...)` and `upper()` on sequence lines). -/
def ncbiProcessLine (tr : List (List Char × List Char)) (mask line : List Char) :
    List Char :=
  if line.take 1 = ['>'] then
    ('>' :: trGet tr (headerAccession line)) ++ (' ' :: headerDesc line)
  else if mask = ("hard".data) then
    line.map (fun c => if c = 'a' ∨ c = 'c' ∨ c = 't' ∨ c = 'g' then 'N' else c)
  else if mask ≠ ("hard".data) ∧ mask ≠ ("soft".data) then pyUpper line
  else line

/-- Whole-file form of the NCBI post-processing rewrite: the temporary output file
receives one rewritten line per input line. -/
def ncbiPostProcessLines (tr : List (List Char × List Char)) (mask : List Char)
    (lines : List (List Char)) : List (List Char) :=
  lines.map (ncbiProcessLine tr mask)

/-- Failure injected into a `download_genome` step after link resolution. -/
inductive DLErr where
  | downloadFailed : DLErr
  | postProcessFailed : DLErr
deriving DecidableEq

/-- Source `ProviderBase.download_genome` after link resolution
(provider.py lines 248-344), over the filesystem model.  `genomeDir` is the
expanded genome directory, `dbname` the name returned by link resolution,
`tmpname` the fresh name `TemporaryDirectory` picks inside the final directory.
`transfer` models the streamed HTTP copy (its failure covers transport errors and
non-200 responses); `postSteps` models decompression, the provider hook, regex
filtering and bgzip as one content transformation that may fail; with `regexUsed`
the staged-and-renamed `<myname>.fa_to_regex` copy also exists in the staging
directory.  The staging directory is removed when the `with` block exits, on
success and failure alike; on success the finished file was first moved into the
final directory and the README is then written. -/
def downloadGenomeFS (fs0 : FS) (genomeDir : FPath) (dbname : String)
    (localname : Option String) (tmpname : String)
    (transfer : Except DLErr (List String))
    (postSteps : List String → Except DLErr (List String)) (regexUsed : Bool)
    (readmeLines : List String) : Option DLErr × FS :=
  let fs1 := fs0.mkdirp genomeDir
  let myname := get_localname dbname localname
  let finalDir := genomeDir ++ [myname]
  let fs2 := fs1.mkdirp finalDir
  let tmpDir := finalDir ++ [tmpname]
  let fs3 := fs2.mkdirp tmpDir
  let faPath := tmpDir ++ [myname ++ ".fa"]
  let bodyResult : Option DLErr × FS :=
    match transfer with
    | .error e => (some e, fs3)
    | .ok content =>
      let fs4 := fs3.write faPath content
      match postSteps content with
      | .error e => (some e, fs4)
      | .ok content2 =>
        let fs5 := fs4.write faPath content2
        let fs6 :=
          if regexUsed then fs5.write (tmpDir ++ [myname ++ ".fa_to_regex"]) content2
          else fs5
        (none, fs6.moveFile faPath (finalDir ++ [myname ++ ".fa"]))
  let fs7 := bodyResult.2.removeTree tmpDir
  match bodyResult.1 with
  | some e => (some e, fs7)
  | none => (none, fs7.write (finalDir ++ ["README.txt"]) readmeLines)

/-- Failures of `install_genome` steps. -/
inductive InstallErr where
  | indexError : InstallErr
  | assertionError : InstallErr
deriving DecidableEq

/-- Contents of one genome directory as `install_genome` observes them: the
sequence file (any `*.fa` / `*.fa.gz`, via the spec-modelled `glob_ext_files`),
the sizes file, the gaps file and the annotation. -/
structure GenomeDirState where
  fa : Option (List String)
  sizes : Option (List String)
  gaps : Option (List String)
  gtf : Option (List String)
deriving DecidableEq

/-- Source `install_genome` (functions.py lines 227-290) over one genome
directory.  `downloadedContent` is what a provider download would deposit;
`genSizes` / `genGaps` model the spec-modelled `generate_fa_sizes` /
`generate_gap_bed` of `genomepy.utils` (not under src/): pure functions of the
sequence file.  The returned Bool records whether `download_genome` was invoked.
The `indexError` arm models `glob_ext_files(out_dir, "fa")[0]` with no sequence
file present; `assertionError` models the `only_annotation` sanitizing assert. -/
def install_genome (st : GenomeDirState) (force onlyAnnot annotFlag
    skipSanitizing : Bool) (downloadedContent : List String)
    (genSizes genGaps : List String → List String) (annotContent : List String) :
    Except InstallErr (GenomeDirState × Bool) :=
  let annotFlag := annotFlag || onlyAnnot
  let noGenomeFound0 := st.fa.isNone
  let dl :=
    if (noGenomeFound0 || force) && !onlyAnnot then
      ({ st with fa := some downloadedContent }, true)
    else (st, false)
  let st1 := dl.1
  let noAnnotationFound := st1.gtf.isNone
  let noGenomeFound := st1.fa.isNone
  if onlyAnnot && noGenomeFound && !skipSanitizing then .error .assertionError
  else
    let sizesStep : Except InstallErr GenomeDirState :=
      if (st1.sizes.isNone || force) && !onlyAnnot then
        match st1.fa with
        | none => .error .indexError
        | some c => .ok { st1 with sizes := some (genSizes c) }
      else .ok st1
    match sizesStep with
    | .error e => .error e
    | .ok st2 =>
      let gapsStep : Except InstallErr GenomeDirState :=
        if (st2.gaps.isNone || force) && !onlyAnnot then
          match st2.fa with
          | none => .error .indexError
          | some c => .ok { st2 with gaps := some (genGaps c) }
        else .ok st2
      match gapsStep with
      | .error e => .error e
      | .ok st3 =>
        let st4 :=
          if (noAnnotationFound || force) && annotFlag then
            { st3 with gtf := some annotContent }
          else st3
        .ok (st4, dl.2)

theorem pyReplaceAux_fuel_irrel (pat rep : List Char) :
    ∀ (fuel₁ fuel₂ : Nat) (l : List Char), l.length ≤ fuel₁ → l.length ≤ fuel₂ →
      pyReplaceAux pat rep fuel₁ l = pyReplaceAux pat rep fuel₂ l := by
  intro fuel₁
  induction fuel₁ with
  | zero =>
    intro fuel₂ l h₁ _
    have : l = [] := List.eq_nil_of_length_eq_zero (Nat.le_zero.mp h₁)
    subst this
    cases fuel₂ <;> rfl
  | succ f ih =>
    intro fuel₂ l h₁ h₂
    cases l with
    | nil => cases fuel₂ <;> rfl
    | cons c rest =>
      cases fuel₂ with
      | zero => simp at h₂
      | succ f₂ =>
        simp only [pyReplaceAux]
        by_cases hc : pat ≠ [] ∧ pat.isPrefixOf (c :: rest)
        · rw [if_pos hc, if_pos hc]
          have hlen : (List.drop (pat.length - 1) rest).length ≤ rest.length := by
            simp [List.length_drop]
          have hr₁ : rest.length ≤ f := Nat.succ_le_succ_iff.mp h₁
          have hr₂ : rest.length ≤ f₂ := Nat.succ_le_succ_iff.mp h₂
          rw [ih f₂ _ (le_trans hlen hr₁) (le_trans hlen hr₂)]
        · rw [if_neg hc, if_neg hc]
          rw [ih f₂ rest (Nat.succ_le_succ_iff.mp h₁) (Nat.succ_le_succ_iff.mp h₂)]

theorem pyReplace_head_match (pat rep t : List Char) (hp : pat ≠ []) :
    pyReplace pat rep (pat ++ t) = rep ++ pyReplace pat rep t := by
  obtain ⟨c, p, rfl⟩ : ∃ c p, pat = c :: p := by
    cases pat with
    | nil => exact absurd rfl hp
    | cons c p => exact ⟨c, p, rfl⟩
  have hpre : (c :: p).isPrefixOf (c :: p ++ t) = true := by
    rw [List.isPrefixOf_iff_prefix]
    exact List.prefix_append _ _
  show pyReplaceAux (c :: p) rep ((c :: p ++ t).length) (c :: (p ++ t)) = _
  simp only [List.cons_append, List.length_cons, pyReplaceAux]
  rw [if_pos ⟨hp, hpre⟩]
  simp only [List.length_cons, Nat.add_sub_cancel, List.drop_left]
  rw [pyReplaceAux_fuel_irrel (c :: p) rep _ t.length t (by simp) le_rfl]
  rfl

theorem pyReplace_head_miss (pat rep : List Char) (c : Char) (rest : List Char)
    (h : pat.isPrefixOf (c :: rest) = false) :
    pyReplace pat rep (c :: rest) = c :: pyReplace pat rep rest := by
  show pyReplaceAux pat rep (rest.length + 1) (c :: rest) = _
  simp only [pyReplaceAux]
  rw [if_neg]
  · rfl
  · rintro ⟨-, hpre⟩
    rw [h] at hpre
    cases hpre

theorem ftp_isPrefixOf_false (c : Char) (l : List Char) (h : c ≠ 'f') :
    ("ftp://".data).isPrefixOf (c :: l) = false := by
  show List.isPrefixOf ('f' :: ("tp://".data)) (c :: l) = false
  simp [List.isPrefixOf]
  intro hc
  exact absurd hc.symm h

theorem pyReplace_ftp_on_https (rep t : List Char) :
    pyReplace ("ftp://".data) rep (("https://".data) ++ t) =
      ("https://".data) ++ pyReplace ("ftp://".data) rep t := by
  show pyReplace _ rep
      ('h' :: 't' :: 't' :: 'p' :: 's' :: ':' :: '/' :: '/' :: t) =
    'h' :: 't' :: 't' :: 'p' :: 's' :: ':' :: '/' :: '/' :: pyReplace _ rep t
  rw [pyReplace_head_miss _ _ _ _ (ftp_isPrefixOf_false _ _ (by decide)),
    pyReplace_head_miss _ _ _ _ (ftp_isPrefixOf_false _ _ (by decide)),
    pyReplace_head_miss _ _ _ _ (ftp_isPrefixOf_false _ _ (by decide)),
    pyReplace_head_miss _ _ _ _ (ftp_isPrefixOf_false _ _ (by decide)),
    pyReplace_head_miss _ _ _ _ (ftp_isPrefixOf_false _ _ (by decide)),
    pyReplace_head_miss _ _ _ _ (ftp_isPrefixOf_false _ _ (by decide)),
    pyReplace_head_miss _ _ _ _ (ftp_isPrefixOf_false _ _ (by decide)),
    pyReplace_head_miss _ _ _ _ (ftp_isPrefixOf_false _ _ (by decide))]

theorem isPrefixOf_append_right {p a : List Char} (b : List Char)
    (h : p.isPrefixOf a = true) : p.isPrefixOf (a ++ b) = true := by
  rw [List.isPrefixOf_iff_prefix] at h ⊢
  exact h.trans (List.prefix_append a b)

theorem isRemoteLink_append (a b : List Char) (h : isRemoteLink a = true) :
    isRemoteLink (a ++ b) = true := by
  simp only [isRemoteLink, List.any_eq_true] at h ⊢
  obtain ⟨p, hp, hpre⟩ := h
  exact ⟨p, hp, isPrefixOf_append_right b hpre⟩

/-- Claim C6, counterexample: with 4 bytes of available memory and a declared
content length of 3 bytes the file would consume exactly 75 percent of available
memory (4 * 3 ≤ 3 * 4), so the claim mandates a single unchunked copy, yet the
code picks chunked transfer (`chunk_size = some 3`) because it tests
`file_size < int(available * 0.75)` strictly. -/
theorem c6_counterexample : downloadChunkSize 4 3 = some 3 ∧ 4 * 3 ≤ 3 * 4 := by
  decide

/-- Claim C6, amended: the transfer is a single unchunked copy exactly when the
declared content length is strictly below `int(available_memory * 0.75)`
(three quarters of available memory rounded down); in particular an unchunked
copy never consumes more than 75 percent of available memory. -/
theorem c6_amended (a f : Nat) :
    (downloadChunkSize a f = none ↔ f < 3 * a / 4) ∧
      (downloadChunkSize a f = none → 4 * f ≤ 3 * a) := by
  constructor
  · simp only [downloadChunkSize]
    split <;> simp_all
  · intro h
    simp only [downloadChunkSize] at h
    split at h
    · next hlt =>
      have h1 : 4 * (3 * a / 4) ≤ 3 * a := by
        have := Nat.div_mul_le_self (3 * a) 4
        omega
      omega
    · cases h

/-- Claim C6, amended, witness at available memory 10 and content length 5. -/
theorem c6_amended_witness :
    (downloadChunkSize 10 5 = none ↔ 5 < 3 * 10 / 4) ∧
      (downloadChunkSize 10 5 = none → 4 * 5 ≤ 3 * 10) := c6_amended 10 5

/-- Claim C9: `install_genome` passes three positional arguments to
`after_genome_download`, but the minimap2 plugin signature
`after_genome_download(self, genome, force=False)` accepts at most two, so the
invocation does not bind (a `TypeError` at run time): the code contradicts its own
caller. -/
theorem c9_minimap2_rejects_plugin_call :
    pyAcceptsPositionalCall minimap2AfterGenomeDownload installGenomePluginCallArity
      = false := by
  decide

/-- Claim C10: every tuple yielded by the NCBI provider's catalog listing or
search carries an accession that either starts with `GCA` or is exactly `na`. -/
theorem c10_ncbi_accession_gca_or_na (gs : List NcbiGenome) (term : List Char)
    (t : GenomeInfoTuple)
    (h : t ∈ ncbiListAvailableGenomes gs ∨ t ∈ ncbiSearch term gs) :
    ("GCA".data).isPrefixOf t.accession = true ∨ t.accession = ("na".data) := by
  have hex : ∃ g, t = ncbiInfoTuple g := by
    rcases h with h | h
    · simp only [ncbiListAvailableGenomes, List.mem_map] at h
      obtain ⟨g, -, hg⟩ := h
      exact ⟨g, hg.symm⟩
    · unfold ncbiSearch at h
      split at h <;>
        · simp only [List.mem_map, List.mem_filter] at h
          obtain ⟨g, -, hg⟩ := h
          exact ⟨g, hg.symm⟩
  obtain ⟨g, rfl⟩ := hex
  show ("GCA".data).isPrefixOf (ncbiInfoTuple g).accession = true ∨ _
  unfold ncbiInfoTuple
  cases hf : ([g.gbrs_paired_asm, g.assembly_accession]).find?
      (fun a => ("GCA".data).isPrefixOf a) with
  | none => right; simp [hf]
  | some a =>
    left
    have hp := List.find?_some hf
    simp [hf, hp]

/-- Claim C10, witness: a catalog with a GenBank-paired row and a row with
neither accession, listed and searched. -/
theorem c10_ncbi_accession_gca_or_na_witness :
    ("GCA".data).isPrefixOf
        (ncbiInfoTuple
          { asm_name := ("ASM1".data), gbrs_paired_asm := ("na".data),
            assembly_accession := ("GCA_000001".data),
            organism_name := ("Homo sapiens".data), species_taxid := ("9606".data),
            submitter := ("GRC".data), ftp_path := ("ftp://x/y".data) }).accession
        = true ∨
      (ncbiInfoTuple
          { asm_name := ("ASM1".data), gbrs_paired_asm := ("na".data),
            assembly_accession := ("GCA_000001".data),
            organism_name := ("Homo sapiens".data), species_taxid := ("9606".data),
            submitter := ("GRC".data), ftp_path := ("ftp://x/y".data) }).accession
        = ("na".data) :=
  c10_ncbi_accession_gca_or_na
    [{ asm_name := ("ASM1".data), gbrs_paired_asm := ("na".data),
       assembly_accession := ("GCA_000001".data),
       organism_name := ("Homo sapiens".data), species_taxid := ("9606".data),
       submitter := ("GRC".data), ftp_path := ("ftp://x/y".data) }]
    ("9606".data) _ (by left; decide)

/-- Claim C7: when the search term parses as an integer, every provider search
yields exactly the catalog entries whose taxonomy id matches the term (textual
match for Ensembl and NCBI, integer match for UCSC), and no entry enters the
result through its name or description fields. -/
theorem c7_integer_search_is_taxid_only (term : List Char)
    (hterm : pyParsesAsInt term = true) (n : Int) (hn : pyIntVal term = some n)
    (egs : List EnsemblGenome) (ugs : List UcscGenome) (ngs : List NcbiGenome)
    (accessionOf : List Char → List Char) (t : GenomeInfoTuple) :
    (t ∈ ensemblSearch term egs ↔
        ∃ g ∈ egs, ensemblTaxidStr g = term ∧ t = ensemblInfoTuple g) ∧
      (t ∈ ucscSearch term ugs accessionOf ↔
        ∃ g ∈ ugs, g.taxId = n ∧ t = ucscInfoTuple accessionOf g) ∧
      (t ∈ ncbiSearch term ngs ↔
        ∃ g ∈ ngs, g.species_taxid = term ∧ t = ncbiInfoTuple g) := by
  refine ⟨?_, ?_, ?_⟩
  · simp only [ensemblSearch, hterm, if_true, List.mem_map, List.mem_filter,
      beq_iff_eq]
    constructor
    · rintro ⟨g, ⟨hg, he⟩, rfl⟩
      exact ⟨g, hg, he.symm, rfl⟩
    · rintro ⟨g, hg, he, rfl⟩
      exact ⟨g, ⟨hg, he.symm⟩, rfl⟩
  · simp only [ucscSearch, hn, List.mem_map, List.mem_filter, beq_iff_eq]
    constructor
    · rintro ⟨g, ⟨hg, he⟩, rfl⟩
      exact ⟨g, hg, he.symm, rfl⟩
    · rintro ⟨g, hg, he, rfl⟩
      exact ⟨g, ⟨hg, he.symm⟩, rfl⟩
  · simp only [ncbiSearch, hterm, if_true, List.mem_map, List.mem_filter,
      beq_iff_eq]
    constructor
    · rintro ⟨g, ⟨hg, he⟩, rfl⟩
      exact ⟨g, hg, he.symm, rfl⟩
    · rintro ⟨g, hg, he, rfl⟩
      exact ⟨g, ⟨hg, he.symm⟩, rfl⟩

/-- Claim C7, witness: the term 9606 against one-row catalogs. -/
theorem c7_integer_search_is_taxid_only_witness :
    ((ncbiInfoTuple
        { asm_name := ("ASM1".data), gbrs_paired_asm := ("GCA_1".data),
          assembly_accession := ("GCA_1".data),
          organism_name := ("Homo sapiens".data), species_taxid := ("9606".data),
          submitter := ("GRC".data), ftp_path := ("ftp://x/y".data) }) ∈
        ensemblSearch ("9606".data) [] ↔
      ∃ g ∈ ([] : List EnsemblGenome), ensemblTaxidStr g = ("9606".data) ∧
        (ncbiInfoTuple
          { asm_name := ("ASM1".data), gbrs_paired_asm := ("GCA_1".data),
            assembly_accession := ("GCA_1".data),
            organism_name := ("Homo sapiens".data), species_taxid := ("9606".data),
            submitter := ("GRC".data), ftp_path := ("ftp://x/y".data) }) =
          ensemblInfoTuple g) ∧
    ((ncbiInfoTuple
        { asm_name := ("ASM1".data), gbrs_paired_asm := ("GCA_1".data),
          assembly_accession := ("GCA_1".data),
          organism_name := ("Homo sapiens".data), species_taxid := ("9606".data),
          submitter := ("GRC".data), ftp_path := ("ftp://x/y".data) }) ∈
        ucscSearch ("9606".data) [] (fun k => k) ↔
      ∃ g ∈ ([] : List UcscGenome), g.taxId = (9606 : Int) ∧
        (ncbiInfoTuple
          { asm_name := ("ASM1".data), gbrs_paired_asm := ("GCA_1".data),
            assembly_accession := ("GCA_1".data),
            organism_name := ("Homo sapiens".data), species_taxid := ("9606".data),
            submitter := ("GRC".data), ftp_path := ("ftp://x/y".data) }) =
          ucscInfoTuple (fun k => k) g) ∧
    ((ncbiInfoTuple
        { asm_name := ("ASM1".data), gbrs_paired_asm := ("GCA_1".data),
          assembly_accession := ("GCA_1".data),
          organism_name := ("Homo sapiens".data), species_taxid := ("9606".data),
          submitter := ("GRC".data), ftp_path := ("ftp://x/y".data) }) ∈
        ncbiSearch ("9606".data)
          [{ asm_name := ("ASM1".data), gbrs_paired_asm := ("GCA_1".data),
             assembly_accession := ("GCA_1".data),
             organism_name := ("Homo sapiens".data), species_taxid := ("9606".data),
             submitter := ("GRC".data), ftp_path := ("ftp://x/y".data) }] ↔
      ∃ g ∈ [{ asm_name := ("ASM1".data), gbrs_paired_asm := ("GCA_1".data),
               assembly_accession := ("GCA_1".data),
               organism_name := ("Homo sapiens".data),
               species_taxid := ("9606".data), submitter := ("GRC".data),
               ftp_path := ("ftp://x/y".data) }],
        g.species_taxid = ("9606".data) ∧
          (ncbiInfoTuple
            { asm_name := ("ASM1".data), gbrs_paired_asm := ("GCA_1".data),
              assembly_accession := ("GCA_1".data),
              organism_name := ("Homo sapiens".data),
              species_taxid := ("9606".data), submitter := ("GRC".data),
              ftp_path := ("ftp://x/y".data) }) = ncbiInfoTuple g) :=
  c7_integer_search_is_taxid_only ("9606".data) (by decide) 9606 (by decide)
    [] [] _ (fun k => k) _

/-- Claim C3: a genome name absent from the provider catalog makes
`get_genome_download_link` fail with the code's genome-not-found error
(`exceptions.GenomeDownloadError`) for Ensembl and NCBI; for UCSC, whose resolver
consults HEAD probes instead of the catalog, the same holds whenever all candidate
URLs probe unsuccessfully (which is the server-side meaning of an absent name). -/
theorem c3_absent_name_fails (ename : List Char) (egs : List EnsemblGenome)
    (assemblyInfo : List Char → Except Unit EnsemblGenome) (mask : List Char)
    (kv sv : Option (List Char)) (fv : List Char) (tl : Bool)
    (probe : List Char → Bool) (uname umask : List Char)
    (headStatus : List Char → Nat) (nname : List Char) (ngs : List NcbiGenome)
    (hens : ∀ g ∈ egs, safeName g.assembly_name ≠ safeName ename)
    (hucsc : ∀ u ∈ ucscUrlTemplates umask uname, headStatus u ≠ 200)
    (hncbi : ∀ g ∈ ngs, nname ≠ g.asm_name ∧ nname ≠ safeName g.asm_name) :
    ensemblGetGenomeDownloadLink ename egs assemblyInfo mask kv sv fv tl probe
        = .error .genomeDownloadError ∧
      ucscGetGenomeDownloadLink uname umask headStatus
        = .error .genomeDownloadError ∧
      ncbiGetGenomeDownloadLink nname ngs = .error .genomeDownloadError := by
  refine ⟨?_, ?_, ?_⟩
  · have hfind : egs.find? (fun g => safeName g.assembly_name == safeName ename)
        = none := by
      rw [List.find?_eq_none]
      intro g hg
      simp only [beq_iff_eq]
      exact hens g hg
    unfold ensemblGetGenomeDownloadLink ensemblGetGenomeInfo
    rw [hfind]
    simp
  · have hfind : (ucscUrlTemplates umask uname).find? (fun u => headStatus u == 200)
        = none := by
      rw [List.find?_eq_none]
      intro u hu
      simp only [beq_iff_eq]
      exact hucsc u hu
    unfold ucscGetGenomeDownloadLink
    rw [hfind]
  · have hfind : ngs.find?
        (fun g => nname == g.asm_name || nname == safeName g.asm_name) = none := by
      rw [List.find?_eq_none]
      intro g hg
      simp only [Bool.or_eq_true, beq_iff_eq, not_or]
      exact hncbi g hg
    unfold ncbiGetGenomeDownloadLink
    rw [hfind]

/-- Claim C3, witness: the name ABSENT against a one-row NCBI catalog, an
always-404 UCSC probe, and a one-row Ensembl catalog. -/
theorem c3_absent_name_fails_witness :
    ensemblGetGenomeDownloadLink ("ABSENT".data)
        [{ assembly_name := ("GRCh38".data), name := ("homo_sapiens".data),
           assembly_accession := some ("GCA_1".data),
           scientific_name := ("Homo sapiens".data), taxonomy_id := some 9606,
           genebuild := ("2014".data), division := ("EnsemblVertebrates".data),
           url_name := ("homo_sapiens".data), extraValues := [] }]
        (fun _ => .error ()) ("soft".data) none none ("99".data) false
        (fun _ => true)
        = .error .genomeDownloadError ∧
      ucscGetGenomeDownloadLink ("ABSENT".data) ("soft".data) (fun _ => 404)
        = .error .genomeDownloadError ∧
      ncbiGetGenomeDownloadLink ("ABSENT".data)
        [{ asm_name := ("ASM1".data), gbrs_paired_asm := ("GCA_1".data),
           assembly_accession := ("GCA_1".data),
           organism_name := ("Homo sapiens".data), species_taxid := ("9606".data),
           submitter := ("GRC".data), ftp_path := ("ftp://x/y".data) }]
        = .error .genomeDownloadError :=
  c3_absent_name_fails ("ABSENT".data) _ _ _ _ _ _ _ _ _ _ _ _ _
    (by intro g hg; fin_cases hg; decide)
    (by intro u hu; fin_cases hu <;> decide)
    (by intro g hg; fin_cases hg; decide)

theorem ensemblGetUrl_isRemoteLink (gi : EnsemblGenome)
    (mask version level : List Char) :
    isRemoteLink (ensemblGetUrl gi mask version level) = true := by
  simp only [ensemblGetUrl]
  repeat apply isRemoteLink_append
  unfold ensemblFtpSite
  split <;> decide

theorem ensembl_ok_isRemoteLink (name : List Char) (egs : List EnsemblGenome)
    (assemblyInfo : List Char → Except Unit EnsemblGenome) (mask : List Char)
    (kv sv : Option (List Char)) (fv : List Char) (tl : Bool)
    (probe : List Char → Bool) (n l : List Char)
    (h : ensemblGetGenomeDownloadLink name egs assemblyInfo mask kv sv fv tl probe
      = .ok (n, l)) : isRemoteLink l = true := by
  cases hinfo : ensemblGetGenomeInfo name egs assemblyInfo with
  | error e =>
    have heq : ensemblGetGenomeDownloadLink name egs assemblyInfo mask kv sv fv tl
        probe = .error e := by
      unfold ensemblGetGenomeDownloadLink
      rw [hinfo]
    rw [heq] at h
    cases h
  | ok gi =>
    have heq : ensemblGetGenomeDownloadLink name egs assemblyInfo mask kv sv fv tl
        probe = ensemblLinkFromInfo gi mask kv sv fv tl probe := by
      unfold ensemblGetGenomeDownloadLink
      rw [hinfo]
    rw [heq] at h
    unfold ensemblLinkFromInfo at h
    split at h
    · cases h
    · split at h
      · simp only [Except.ok.injEq, Prod.mk.injEq] at h
        obtain ⟨-, rfl⟩ := h
        exact ensemblGetUrl_isRemoteLink _ _ _ _
      · split at h <;>
          · simp only [Except.ok.injEq, Prod.mk.injEq] at h
            obtain ⟨-, rfl⟩ := h
            exact ensemblGetUrl_isRemoteLink _ _ _ _

theorem ucsc_ok_isRemoteLink (name mask : List Char) (headStatus : List Char → Nat)
    (n l : List Char)
    (h : ucscGetGenomeDownloadLink name mask headStatus = .ok (n, l)) :
    isRemoteLink l = true := by
  unfold ucscGetGenomeDownloadLink at h
  cases hf : (ucscUrlTemplates mask name).find? (fun u => headStatus u == 200) with
  | none => rw [hf] at h; cases h
  | some u =>
    rw [hf] at h
    simp only [Except.ok.injEq, Prod.mk.injEq] at h
    obtain ⟨-, rfl⟩ := h
    have hu := List.mem_of_find?_eq_some hf
    simp only [ucscUrlTemplates] at hu
    split at hu <;>
      simp only [List.mem_cons, List.not_mem_nil, or_false] at hu <;>
      rcases hu with rfl | rfl <;>
      · repeat apply isRemoteLink_append
        decide

theorem ncbi_ok_isRemoteLink (name : List Char) (ngs : List NcbiGenome)
    (n l : List Char)
    (hftp : ∀ g ∈ ngs, ("ftp://".data).isPrefixOf g.ftp_path = true ∨
      ("https://".data).isPrefixOf g.ftp_path = true)
    (h : ncbiGetGenomeDownloadLink name ngs = .ok (n, l)) :
    isRemoteLink l = true := by
  unfold ncbiGetGenomeDownloadLink at h
  cases hf : ngs.find?
      (fun g => name == g.asm_name || name == safeName g.asm_name) with
  | none => rw [hf] at h; cases h
  | some g =>
    rw [hf] at h
    simp only [Except.ok.injEq, Prod.mk.injEq] at h
    obtain ⟨-, rfl⟩ := h
    have hg := List.mem_of_find?_eq_some hf
    unfold ncbiGenomeUrl
    rcases hftp g hg with hp | hp <;> rw [List.isPrefixOf_iff_prefix] at hp <;>
      obtain ⟨t, ht⟩ := hp <;> rw [← ht]
    · rw [pyReplace_head_match _ _ _ (by decide)]
      apply isRemoteLink_append
      apply isRemoteLink_append
      decide
    · rw [pyReplace_ftp_on_https]
      apply isRemoteLink_append
      apply isRemoteLink_append
      decide

/-- Claim C2, counterexample: the URL provider's `get_genome_download_link`
succeeds on any input and returns it verbatim, so a local filesystem path is
returned as the "link", which starts with none of `http://`, `https://`,
`ftp://`. -/
theorem c2_counterexample :
    (urlGetGenomeDownloadLink ("/data/genomes/hg38.fa".data)).2
        = ("/data/genomes/hg38.fa".data) ∧
      isRemoteLink ("/data/genomes/hg38.fa".data) = false := by
  decide

/-- Claim C2, amended: for the Ensembl, UCSC and NCBI providers every successful
`get_genome_download_link` returns a link starting with `http://`, `https://` or
`ftp://` (for NCBI provided each catalog `ftp_path` itself starts with `ftp://`
or `https://`, as the NCBI assembly summaries do); the URL provider returns its
input verbatim and therefore gives a remote link only when handed one. -/
theorem c2_amended (ename : List Char) (egs : List EnsemblGenome)
    (assemblyInfo : List Char → Except Unit EnsemblGenome) (emask : List Char)
    (kv sv : Option (List Char)) (fv : List Char) (tl : Bool)
    (probe : List Char → Bool) (en el : List Char)
    (uname umask : List Char) (headStatus : List Char → Nat) (un ul : List Char)
    (nname : List Char) (ngs : List NcbiGenome) (nn nl : List Char)
    (hens : ensemblGetGenomeDownloadLink ename egs assemblyInfo emask kv sv fv tl
      probe = .ok (en, el))
    (hucsc : ucscGetGenomeDownloadLink uname umask headStatus = .ok (un, ul))
    (hftp : ∀ g ∈ ngs, ("ftp://".data).isPrefixOf g.ftp_path = true ∨
      ("https://".data).isPrefixOf g.ftp_path = true)
    (hncbi : ncbiGetGenomeDownloadLink nname ngs = .ok (nn, nl)) :
    isRemoteLink el = true ∧ isRemoteLink ul = true ∧ isRemoteLink nl = true :=
  ⟨ensembl_ok_isRemoteLink ename egs assemblyInfo emask kv sv fv tl probe en el hens,
   ucsc_ok_isRemoteLink uname umask headStatus un ul hucsc,
   ncbi_ok_isRemoteLink nname ngs nn nl hftp hncbi⟩

/-- Claim C2, amended, witness: concrete successful resolutions for all three
catalog-backed providers. -/
theorem c2_amended_witness :
    isRemoteLink
        (("http://ftp.ensembl.org/pub//release-99/fasta/homo_sapiens/dna//Homo_sapiens.GRCh38.dna_sm.toplevel.fa.gz").data)
        = true ∧
      isRemoteLink
        (("http://hgdownload.soe.ucsc.edu/goldenPath/hg38/bigZips/chromFa.tar.gz").data)
        = true ∧
      isRemoteLink
        (("https://ftp.ncbi.nlm.nih.gov/genomes/all/GCA_1/ASM1v1/ASM1v1_genomic.fna.gz").data)
        = true :=
  c2_amended ("GRCh38.p13".data)
    [{ assembly_name := ("GRCh38.p13".data), name := ("homo_sapiens".data),
       assembly_accession := some ("GCA_1".data),
       scientific_name := ("Homo sapiens".data), taxonomy_id := some 9606,
       genebuild := ("2014".data), division := ("EnsemblVertebrates".data),
       url_name := ("homo_sapiens".data), extraValues := [] }]
    (fun _ => .ok
      { assembly_name := ("GRCh38.p13".data), name := ("homo_sapiens".data),
        assembly_accession := some ("GCA_1".data),
        scientific_name := ("Homo sapiens".data), taxonomy_id := some 9606,
        genebuild := ("2014".data), division := ("EnsemblVertebrates".data),
        url_name := ("homo_sapiens".data), extraValues := [] })
    ("soft".data) none none ("99".data) true (fun _ => true)
    ("GRCh38.p13".data)
    (("http://ftp.ensembl.org/pub//release-99/fasta/homo_sapiens/dna//Homo_sapiens.GRCh38.dna_sm.toplevel.fa.gz").data)
    ("hg38".data) ("soft".data) (fun _ => 200) ("hg38".data)
    (("http://hgdownload.soe.ucsc.edu/goldenPath/hg38/bigZips/chromFa.tar.gz").data)
    ("ASM1v1".data)
    [{ asm_name := ("ASM1v1".data), gbrs_paired_asm := ("GCA_1".data),
       assembly_accession := ("GCA_1".data),
       organism_name := ("Homo sapiens".data), species_taxid := ("9606".data),
       submitter := ("GRC".data),
       ftp_path := ("ftp://ftp.ncbi.nlm.nih.gov/genomes/all/GCA_1/ASM1v1".data) }]
    ("ASM1v1".data)
    (("https://ftp.ncbi.nlm.nih.gov/genomes/all/GCA_1/ASM1v1/ASM1v1_genomic.fna.gz").data)
    (by rfl) (by rfl)
    (by intro g hg; fin_cases hg; left; decide)
    (by rfl)

theorem hardMask_pointwise (c : Char) :
    (if c = 'a' ∨ c = 'c' ∨ c = 't' ∨ c = 'g' then 'N' else c) =
      (if c ∈ (['a', 'c', 'g', 't'] : List Char) then 'N' else c) := by
  have hiff : (c = 'a' ∨ c = 'c' ∨ c = 't' ∨ c = 'g') ↔
      c ∈ (['a', 'c', 'g', 't'] : List Char) := by
    simp only [List.mem_cons, List.not_mem_nil, or_false]
    tauto
  rw [if_congr hiff rfl rfl]

/-- Claim C4: the NCBI post-processing hook rewrites every header line into the
translated sequence name followed by the whole original (stripped) header text as
description, and rewrites every sequence line according to the mask: `hard` turns
each lowercase a, c, g, t into N, any mask other than `hard` / `soft` upper-cases
the line, and `soft` leaves it unchanged. -/
theorem c4_ncbi_post_process_rewrites (tr : List (List Char × List Char))
    (mask : List Char) (lines : List (List Char)) (i : Nat)
    (hi : i < lines.length) :
    ∃ ho : i < (ncbiPostProcessLines tr mask lines).length,
      (lines[i].take 1 = ['>'] →
        (ncbiPostProcessLines tr mask lines)[i] =
          ('>' :: trGet tr (headerAccession lines[i])) ++
            (' ' :: headerDesc lines[i])) ∧
      (lines[i].take 1 ≠ ['>'] →
        (mask = ("hard".data) →
          (ncbiPostProcessLines tr mask lines)[i] =
            lines[i].map
              (fun c => if c ∈ (['a', 'c', 'g', 't'] : List Char) then 'N' else c)) ∧
        (mask ≠ ("hard".data) ∧ mask ≠ ("soft".data) →
          (ncbiPostProcessLines tr mask lines)[i] = pyUpper lines[i]) ∧
        (mask = ("soft".data) → (ncbiPostProcessLines tr mask lines)[i] = lines[i])) := by
  have ho : i < (ncbiPostProcessLines tr mask lines).length := by
    simpa [ncbiPostProcessLines] using hi
  have hget : (ncbiPostProcessLines tr mask lines)[i] =
      ncbiProcessLine tr mask lines[i] := by
    simp [ncbiPostProcessLines]
  refine ⟨ho, ?_, ?_⟩
  · intro h1
    rw [hget]
    unfold ncbiProcessLine
    rw [if_pos h1]
  · intro h1
    refine ⟨?_, ?_, ?_⟩
    · intro hm
      rw [hget]
      unfold ncbiProcessLine
      rw [if_neg h1, if_pos hm]
      exact List.map_congr_left (fun c _ => hardMask_pointwise c)
    · rintro ⟨hm1, hm2⟩
      rw [hget]
      unfold ncbiProcessLine
      rw [if_neg h1, if_neg hm1, if_pos ⟨hm1, hm2⟩]
    · intro hm
      subst hm
      rw [hget]
      unfold ncbiProcessLine
      rw [if_neg h1, if_neg (by decide), if_neg (by simp)]

/-- Claim C4, witness: a header line carrying a translated accession and a
soft-masked sequence line, under the hard mask. -/
theorem c4_ncbi_post_process_rewrites_witness :
    ∃ ho : 1 < (ncbiPostProcessLines [(("AC1.1".data), ("chr1".data))] ("hard".data)
        [(">AC1.1 Homo sapiens chromosome 1".data), ("acgtNn".data)]).length,
      ((([(">AC1.1 Homo sapiens chromosome 1".data),
          ("acgtNn".data)] : List (List Char))[1]).take 1 = ['>'] →
        (ncbiPostProcessLines [(("AC1.1".data), ("chr1".data))] ("hard".data)
          [(">AC1.1 Homo sapiens chromosome 1".data), ("acgtNn".data)])[1] =
          ('>' :: trGet [(("AC1.1".data), ("chr1".data))]
              (headerAccession (([(">AC1.1 Homo sapiens chromosome 1".data),
                ("acgtNn".data)] : List (List Char))[1]))) ++
            (' ' :: headerDesc (([(">AC1.1 Homo sapiens chromosome 1".data),
              ("acgtNn".data)] : List (List Char))[1]))) ∧
      ((([(">AC1.1 Homo sapiens chromosome 1".data),
          ("acgtNn".data)] : List (List Char))[1]).take 1 ≠ ['>'] →
        (("hard".data) = ("hard".data) →
          (ncbiPostProcessLines [(("AC1.1".data), ("chr1".data))] ("hard".data)
            [(">AC1.1 Homo sapiens chromosome 1".data), ("acgtNn".data)])[1] =
            (([(">AC1.1 Homo sapiens chromosome 1".data),
              ("acgtNn".data)] : List (List Char))[1]).map
              (fun c => if c ∈ (['a', 'c', 'g', 't'] : List Char) then 'N' else c)) ∧
        (("hard".data) ≠ ("hard".data) ∧ ("hard".data) ≠ ("soft".data) →
          (ncbiPostProcessLines [(("AC1.1".data), ("chr1".data))] ("hard".data)
            [(">AC1.1 Homo sapiens chromosome 1".data), ("acgtNn".data)])[1] =
            pyUpper (([(">AC1.1 Homo sapiens chromosome 1".data),
              ("acgtNn".data)] : List (List Char))[1])) ∧
        (("hard".data) = ("soft".data) →
          (ncbiPostProcessLines [(("AC1.1".data), ("chr1".data))] ("hard".data)
            [(">AC1.1 Homo sapiens chromosome 1".data), ("acgtNn".data)])[1] =
            (([(">AC1.1 Homo sapiens chromosome 1".data),
              ("acgtNn".data)] : List (List Char))[1]))) :=
  c4_ncbi_post_process_rewrites [(("AC1.1".data), ("chr1".data))] ("hard".data)
    [(">AC1.1 Homo sapiens chromosome 1".data), ("acgtNn".data)] 1 (by decide)

/-- Claim C5: with mask `none` the UCSC hook is supposed to rewrite the staged
fasta with all sequence lines upper-cased, but the code computes the temporary
output path as `os.path.join(out_dir, localname, ".process.<localname>.fa")` —
with an extra `localname` directory component that does not exist inside the
staging directory — so opening it for writing fails and the hook raises instead
of rewriting: evaluated at a staged genome `tmp0/hg19.fa` with mask `none`, the
hook errors on the missing `tmp0/hg19/` directory.  (The NCBI hook, by contrast,
writes `os.path.join(out_dir, ".process.<localname>.fa")`.) -/
theorem c5_ucsc_unmask_hook_write_fails :
    ucscPostProcessDownload
        { dirs := [[], ["tmp0"]],
          files := [(["tmp0", "hg19.fa"], [">chr1", "AcGtN"])] }
        "hg19" none ["tmp0"] "none"
        = .error (.fileNotFound ["tmp0", "hg19", ".process.hg19.fa"]) := by
  rfl

/-- Claim C8: re-running `install_genome` with `force=False` on a directory that
already holds a sequence file performs no download, leaves the sequence file
unchanged, and still (re)generates the sizes and gaps files exactly when they are
missing. -/
theorem c8_reinstall_keeps_fa_regenerates_sidecars (st : GenomeDirState)
    (c : List String) (hfa : st.fa = some c) (annotFlag skipSanitizing : Bool)
    (dl : List String) (genS genG : List String → List String)
    (annot : List String) :
    ∃ st', install_genome st false false annotFlag skipSanitizing dl genS genG
        annot = .ok (st', false) ∧
      st'.fa = some c ∧
      st'.sizes = some (st.sizes.getD (genS c)) ∧
      st'.gaps = some (st.gaps.getD (genG c)) := by
  unfold install_genome
  cases hs : st.sizes <;> cases hg : st.gaps <;>
    simp [hfa, hs, hg] <;>
    split <;> simp_all

/-- Claim C8, witness: an installed genome with the sizes file missing and the
gaps file present. -/
theorem c8_reinstall_keeps_fa_regenerates_sidecars_witness :
    ∃ st', install_genome
        { fa := some [">chr1", "ACGT"], sizes := none,
          gaps := some ["chr1\t0\t0"], gtf := none }
        false false false false [">chr1", "NNNN"]
        (fun _ => ["chr1\t4"]) (fun _ => []) []
        = .ok (st', false) ∧
      st'.fa = some [">chr1", "ACGT"] ∧
      st'.sizes = some ((none : Option (List String)).getD ["chr1\t4"]) ∧
      st'.gaps = some ((some ["chr1\t0\t0"] : Option (List String)).getD []) :=
  c8_reinstall_keeps_fa_regenerates_sidecars
    { fa := some [">chr1", "ACGT"], sizes := none,
      gaps := some ["chr1\t0\t0"], gtf := none }
    [">chr1", "ACGT"] rfl false false [">chr1", "NNNN"]
    (fun _ => ["chr1\t4"]) (fun _ => []) []

theorem removeTree_dirs_clean (fs : FS) (p : FPath) :
    ∀ d ∈ (fs.removeTree p).dirs, p.isPrefixOf d = false := by
  intro d hd
  have := (List.mem_filter.mp hd).2
  simpa using this

theorem removeTree_files_clean (fs : FS) (p : FPath) :
    ∀ e ∈ (fs.removeTree p).files, p.isPrefixOf e.1 = false := by
  intro e he
  have := (List.mem_filter.mp he).2
  simpa using this

theorem filter_not_prefix_eq_self (p : FPath) (l : List (FPath × List String))
    (h : ∀ e ∈ l, p.isPrefixOf e.1 = false) :
    l.filter (fun e => !(p.isPrefixOf e.1)) = l :=
  List.filter_eq_self.mpr (fun e he => by simp [h e he])

theorem isPrefixOf_self_append (p t : FPath) : p.isPrefixOf (p ++ t) = true := by
  rw [List.isPrefixOf_iff_prefix]
  exact List.prefix_append p t

theorem append_singleton_prefix_eq_false (a : FPath) (x y : String) (h : x ≠ y)
    (t : FPath) : (a ++ [x]).isPrefixOf (a ++ (y :: t)) = false := by
  rw [Bool.eq_false_iff]
  intro hpre
  rw [List.isPrefixOf_iff_prefix] at hpre
  rw [show a ++ (y :: t) = a ++ [y] ++ t by simp] at hpre
  have : a ++ [x] <+: a ++ [y] ∨ a ++ [y] <+: a ++ [x] :=
    List.prefix_or_prefix_of_prefix hpre (List.prefix_append _ _)
  rcases this with hp | hp
  · rw [List.prefix_append_right_inj, List.cons_prefix_cons] at hp
    exact h (by simpa using hp.1)
  · rw [List.prefix_append_right_inj, List.cons_prefix_cons] at hp
    exact h (by simpa using hp.1.symm)

/-- Claim C1, amended: after link resolution, a failing `download_genome` adds no
file to the filesystem (in particular none to the final directory, whose previous
files are untouched), and no staging residue survives the call on success or
failure — but the final directory itself is created before the transfer and
remains, possibly empty, after a failure. -/
theorem c1_amended_no_staging_residue (fs0 : FS) (genomeDir : FPath)
    (dbname : String) (localname : Option String) (tmpname : String)
    (transfer : Except DLErr (List String))
    (postSteps : List String → Except DLErr (List String)) (regexUsed : Bool)
    (readmeLines : List String)
    (hfreshf : ∀ e ∈ fs0.files,
      (genomeDir ++ [get_localname dbname localname] ++ [tmpname]).isPrefixOf e.1
        = false)
    (hne2 : tmpname ≠ "README.txt") :
    (∀ e ∈ (downloadGenomeFS fs0 genomeDir dbname localname tmpname transfer
        postSteps regexUsed readmeLines).2.files,
      (genomeDir ++ [get_localname dbname localname] ++ [tmpname]).isPrefixOf e.1
        = false) ∧
    (∀ d ∈ (downloadGenomeFS fs0 genomeDir dbname localname tmpname transfer
        postSteps regexUsed readmeLines).2.dirs,
      (genomeDir ++ [get_localname dbname localname] ++ [tmpname]).isPrefixOf d
        = false) ∧
    ((downloadGenomeFS fs0 genomeDir dbname localname tmpname transfer postSteps
        regexUsed readmeLines).1.isSome = true →
      (downloadGenomeFS fs0 genomeDir dbname localname tmpname transfer postSteps
        regexUsed readmeLines).2.files = fs0.files) := by
  cases transfer with
  | error e =>
    simp only [downloadGenomeFS, FS.mkdirp, FS.removeTree, FS.write]
    refine ⟨?_, ?_, ?_⟩
    · intro x hx
      have := (List.mem_filter.mp hx).2
      simpa using this
    · intro d hd
      have := (List.mem_filter.mp hd).2
      simpa using this
    · intro _
      exact filter_not_prefix_eq_self _ _ hfreshf
  | ok content =>
    cases hpost : postSteps content with
    | error e =>
      simp only [downloadGenomeFS, hpost, FS.mkdirp, FS.removeTree, FS.write]
      refine ⟨?_, ?_, ?_⟩
      · intro x hx
        have := (List.mem_filter.mp hx).2
        simpa using this
      · intro d hd
        have := (List.mem_filter.mp hd).2
        simpa using this
      · intro _
        rw [List.filter_cons]
        have hpre : (genomeDir ++ [get_localname dbname localname] ++
            [tmpname]).isPrefixOf
            ((genomeDir ++ [get_localname dbname localname] ++ [tmpname]) ++
              [get_localname dbname localname ++ ".fa"]) = true :=
          isPrefixOf_self_append _ _
        simp only [hpre, Bool.not_true, if_false]
        exact filter_not_prefix_eq_self _ _ hfreshf
    | ok content2 =>
      simp only [downloadGenomeFS, hpost]
      refine ⟨?_, ?_, ?_⟩
      · intro x hx
        simp only [FS.write] at hx
        rcases List.mem_cons.mp hx with rfl | hx2
        · exact append_singleton_prefix_eq_false _ _ _ hne2 []
        · exact removeTree_files_clean _ _ x hx2
      · intro d hd
        simp only [FS.write] at hd
        exact removeTree_dirs_clean _ _ d hd
      · intro hsome
        simp at hsome

/-- Claim C1, counterexample: a transfer failure on a fresh install leaves the
genome's final directory neither absent nor unchanged — `download_genome` creates
`genome_dir/<localname>` before the transfer (provider.py lines 254-255), so after
the failing call the final directory exists although it did not before. -/
theorem c1_counterexample :
    (downloadGenomeFS { dirs := [[]], files := [] } ["genomes"] "hg38" none
        "tmpXYZ" (.error .downloadFailed) (fun c => .ok c) false []).1
      = some DLErr.downloadFailed ∧
    (downloadGenomeFS { dirs := [[]], files := [] } ["genomes"] "hg38" none
        "tmpXYZ" (.error .downloadFailed) (fun c => .ok c) false []).2.dirIn
        ["genomes", "hg38"] = true ∧
    FS.dirIn { dirs := [[]], files := [] } ["genomes", "hg38"] = false := by
  decide

/-- Claim C1, amended, witness: a successful install with regex filtering leaves
no staging residue. -/
theorem c1_amended_no_staging_residue_witness :
    (∀ e ∈ (downloadGenomeFS { dirs := [[]], files := [] } ["genomes"] "hg38" none
        "tmpXYZ" (.ok [">chr1", "ACGT"]) (fun c => .ok c) true
        ["name: hg38"]).2.files,
      ((["genomes"] : FPath) ++ [get_localname "hg38" none] ++
        ["tmpXYZ"]).isPrefixOf e.1 = false) ∧
    (∀ d ∈ (downloadGenomeFS { dirs := [[]], files := [] } ["genomes"] "hg38" none
        "tmpXYZ" (.ok [">chr1", "ACGT"]) (fun c => .ok c) true
        ["name: hg38"]).2.dirs,
      ((["genomes"] : FPath) ++ [get_localname "hg38" none] ++
        ["tmpXYZ"]).isPrefixOf d = false) ∧
    ((downloadGenomeFS { dirs := [[]], files := [] } ["genomes"] "hg38" none
        "tmpXYZ" (.ok [">chr1", "ACGT"]) (fun c => .ok c) true
        ["name: hg38"]).1.isSome = true →
      (downloadGenomeFS { dirs := [[]], files := [] } ["genomes"] "hg38" none
        "tmpXYZ" (.ok [">chr1", "ACGT"]) (fun c => .ok c) true
        ["name: hg38"]).2.files = ({ dirs := [[]], files := [] } : FS).files) :=
  c1_amended_no_staging_residue { dirs := [[]], files := [] } ["genomes"] "hg38"
    none "tmpXYZ" (.ok [">chr1", "ACGT"]) (fun c => .ok c) true ["name: hg38"]
    (by simp) (by decide)
